import Mathlib

/-!
Shallow embedding of the date utilities of `src/date.rs`.

Modelling conventions:
- Rust `i32` values (`year`, the running day counts) are modelled as `Int`.
- Rust `u8` fields (`month`, `day`) are modelled as `Nat`; all comparisons in
  the source fit the `u8` range, so the embedding agrees with the source on
  every representable input.
- Machine-integer overflow is modelled wherever it is reachable.  In
  `month_days`, `bias` is a Rust `u32` and `bias -= 10` underflows (release
  builds wrap modulo `2^32`; the subsequent `u32` addition wraps back); the
  `u32 -> i32` reinterpreting cast performed by `as i32` in `day_of_year` is
  also explicit.  In `days_between_dates` the `days` accumulator and the
  final `-days - d1 + d2` are `i32` arithmetic, which release builds wrap
  into `[-2^31, 2^31)`; `wrap32` models that two's-complement wrap and is
  applied at every `i32` addition, subtraction and negation of the loop and
  of the result expression.  (`day_of_year` itself cannot overflow: its
  operands stay below 2^31 - 2^32 is never approached there.)
- Likewise `i32::abs` in the `Display` implementation wraps on `i32::MIN` in
  release builds; `i32_abs` models that.
- `Result<T, String>` is modelled as `Except String T`.
-/

def GREGORIAN_YEAR : Int := 1582

def MONTH_DAYS : List Nat := [31, 28, 31, 30, 31, 30, 31, 31, 30, 31, 30, 31]

def RUNNING_DAYS_PER_MONTH : List Nat :=
  [0, 31, 59, 90, 120, 151, 181, 212, 243, 273, 304, 334]

def MONTHS : List String :=
  ["January", "February", "March", "April", "May", "June", "July", "August",
   "September", "October", "November", "December"]

structure Date where
  year : Int
  month : Nat
  day : Nat
deriving DecidableEq, Repr

/-- Rust `i32::abs` under release (wrapping) semantics: `abs(i32::MIN) = i32::MIN`. -/
def i32_abs (y : Int) : Int := if y = -(2 ^ 31) then y else |y|

/-- The `Display` implementation: `"<Month> <day>, <abs(year)>[ BC]"`. -/
def display (d : Date) : String :=
  let era := if d.year < 0 then " BC" else ""
  MONTHS.getD (d.month - 1) "" ++ " " ++ toString d.day ++ ", "
    ++ toString (i32_abs d.year) ++ era

/-- `Date::is_leap`.  Rust `%` on `i32` is truncated remainder, `Int.tmod`. -/
def is_leap (year : Int) : Bool :=
  let y := if year < 0 then year + 1 else year
  if y < GREGORIAN_YEAR then y.tmod 4 == 0
  else y.tmod 400 == 0 || (y.tmod 4 == 0 && y.tmod 100 != 0)

/-- `Date::is_valid`, the four match arms in source order. -/
def is_valid (d : Date) : Except String Unit :=
  if d.year = 0 then .error "Year 0 does not exist"
  else if d.month < 1 ∨ d.month > 12 then .error "Invalid month"
  else if d.year = GREGORIAN_YEAR ∧ d.month = 10 ∧ d.day > 4 ∧ d.day < 14 then
    .error (display d ++ " does not exist")
  else
    let m := MONTH_DAYS.getD (d.month - 1) 0
      + (if d.month = 2 ∧ is_leap d.year then 1 else 0)
    if d.day > 0 ∧ d.day ≤ m then .ok () else .error (display d ++ ": Invalid day")

/-- `Date::year_days`. -/
def year_days (year : Int) : Int :=
  if year = 0 then 0
  else if year = GREGORIAN_YEAR then 355
  else 365 + (if is_leap year then 1 else 0)

/-- `Date::month_days`.  `bias` is a Rust `u32`; `bias -= 10` underflows and the
result wraps modulo `2^32` (release semantics), as does the final addition. -/
def month_days (month : Nat) (year : Int) : Nat :=
  let bias : Nat := if month > 2 ∧ is_leap year then 1 else 0
  let bias : Nat :=
    if year = GREGORIAN_YEAR ∧ month > 9 then (bias + (2 ^ 32 - 10)) % 2 ^ 32 else bias
  (RUNNING_DAYS_PER_MONTH.getD (month - 1) 0 + bias) % 2 ^ 32

/-- The `as i32` reinterpreting cast of a `u32` value. -/
def u32_as_i32 (n : Nat) : Int := if n < 2 ^ 31 then (n : Int) else (n : Int) - 2 ^ 32

/-- `Date::day_of_year`. -/
def day_of_year (d : Date) : Int :=
  let days := u32_as_i32 (month_days d.month d.year)
  let days :=
    if d.year = GREGORIAN_YEAR ∧ (d.month > 10 ∨ (d.month = 10 ∧ d.day > 13)) then
      days - 10
    else days
  days + (d.day : Int)

/-- Two's-complement wrap of an `i32` arithmetic result under Rust release
semantics: the value reduced modulo `2^32` into `[-2^31, 2^31)`. -/
def wrap32 (n : Int) : Int := (n + 2 ^ 31) % 2 ^ 32 - 2 ^ 31

/-- The `for year in year1..year2 { days += year_days(year) }` loop; the `i32`
accumulator `days` wraps at every addition in release builds. -/
def sum_year_days (year1 year2 : Int) : Int :=
  (List.range (year2 - year1).toNat).foldl
    (fun (acc : Int) (i : Nat) => wrap32 (acc + year_days (year1 + (i : Int)))) 0

/-- `Date::days_between_dates`.  The result expressions `-days - d1 + d2` and
`days - d1 + d2` are `i32` arithmetic: each negation, subtraction and addition
wraps in release builds. -/
def days_between_dates (first last : Date) : Except String Int :=
  match is_valid first with
  | .error e => .error e
  | .ok _ =>
    match is_valid last with
    | .error e => .error e
    | .ok _ =>
      let p : Int × Int :=
        if first.year > last.year then (last.year, first.year)
        else (first.year, last.year)
      let days := sum_year_days p.1 p.2
      let d1 := day_of_year first
      let d2 := day_of_year last
      if first.year > last.year then
        .ok (wrap32 (wrap32 (wrap32 (-days) - d1) + d2))
      else
        .ok (wrap32 (wrap32 (days - d1) + d2))

/-- Formalisation of the claimed leap-year description: shift years before 1 by
+1, then test `y % 4 == 0` below 1582 and the Gregorian rule from 1582 on. -/
def is_leap_claim (year : Int) : Bool :=
  let y := if year < 1 then year + 1 else year
  if y < 1582 then y.tmod 4 == 0
  else y.tmod 400 == 0 || (y.tmod 4 == 0 && y.tmod 100 != 0)

/-- The day-difference formula exactly as the claim states it: the year sum
ranges over the years strictly between the two years, exclusive of both
endpoints (`Finset.Ioo`). -/
def days_between_claim_strict (a b : Date) : Int :=
  let s := ∑ y ∈ Finset.Ioo (min a.year b.year) (max a.year b.year), year_days y
  if a.year > b.year then -s - day_of_year a + day_of_year b
  else s - day_of_year a + day_of_year b

/-- The amended day-difference formula: the year sum ranges from the earlier
year (inclusive) up to the later year (exclusive) (`Finset.Ico`). -/
def days_between_formula (a b : Date) : Int :=
  let s := ∑ y ∈ Finset.Ico (min a.year b.year) (max a.year b.year), year_days y
  if a.year > b.year then -s - day_of_year a + day_of_year b
  else s - day_of_year a + day_of_year b

lemma is_leap_1582 : is_leap 1582 = false := by decide

lemma is_valid_ok_iff (d : Date) :
    is_valid d = .ok () ↔
      d.year ≠ 0 ∧ 1 ≤ d.month ∧ d.month ≤ 12 ∧
      ¬(d.year = 1582 ∧ d.month = 10 ∧ 4 < d.day ∧ d.day < 14) ∧
      1 ≤ d.day ∧
      d.day ≤ MONTH_DAYS.getD (d.month - 1) 0
        + (if d.month = 2 ∧ is_leap d.year then 1 else 0) := by
  unfold is_valid GREGORIAN_YEAR
  split_ifs with h1 h2 h3 h4 <;> simp_all <;> omega

lemma wrap32_add_wrap_left (a b : Int) : wrap32 (wrap32 a + b) = wrap32 (a + b) := by
  unfold wrap32
  omega

lemma wrap32_chain_pos (s d1 d2 : Int) :
    wrap32 (wrap32 (wrap32 s - d1) + d2) = wrap32 (s - d1 + d2) := by
  unfold wrap32
  omega

lemma wrap32_chain_neg (s d1 d2 : Int) :
    wrap32 (wrap32 (wrap32 (-(wrap32 s)) - d1) + d2) = wrap32 (-s - d1 + d2) := by
  unfold wrap32
  omega

lemma wrap32_neg_wrap (a : Int) : wrap32 (-(wrap32 a)) = wrap32 (-a) := by
  unfold wrap32
  omega

lemma foldl_range_year_days (y1 : Int) (n : Nat) :
    (List.range n).foldl
        (fun (acc : Int) (i : Nat) => wrap32 (acc + year_days (y1 + (i : Int)))) 0
      = wrap32 (∑ y ∈ Finset.Ico y1 (y1 + (n : Int)), year_days y) := by
  induction n with
  | zero => simp [wrap32]
  | succ k ih =>
    rw [List.range_succ, List.foldl_append]
    simp only [List.foldl_cons, List.foldl_nil]
    rw [ih]
    push_cast
    have hset : Finset.Ico y1 (y1 + ((k : Int) + 1))
        = insert (y1 + (k : Int)) (Finset.Ico y1 (y1 + (k : Int))) := by
      ext z
      simp only [Finset.mem_Ico, Finset.mem_insert]
      omega
    rw [hset, Finset.sum_insert (by simp [Finset.mem_Ico]), wrap32_add_wrap_left]
    rw [add_comm]

lemma sum_year_days_eq (y1 y2 : Int) (h : y1 ≤ y2) :
    sum_year_days y1 y2 = wrap32 (∑ y ∈ Finset.Ico y1 y2, year_days y) := by
  unfold sum_year_days
  rw [foldl_range_year_days]
  rw [show y1 + (((y2 - y1).toNat : Nat) : Int) = y2 by
    rw [Int.toNat_of_nonneg (by omega)]; ring]

lemma days_between_eq_of_valid (a b : Date)
    (ha : is_valid a = .ok ()) (hb : is_valid b = .ok ()) :
    days_between_dates a b
      = .ok (wrap32 ((if a.year > b.year then
            -(∑ y ∈ Finset.Ico (min a.year b.year) (max a.year b.year), year_days y)
          else ∑ y ∈ Finset.Ico (min a.year b.year) (max a.year b.year), year_days y)
          - day_of_year a + day_of_year b)) := by
  unfold days_between_dates
  rw [ha, hb]
  by_cases h : a.year > b.year
  · simp only [h, if_true]
    rw [min_eq_right (le_of_lt h), max_eq_left (le_of_lt h),
      sum_year_days_eq b.year a.year (le_of_lt h), wrap32_chain_neg]
  · simp only [h, if_false]
    rw [min_eq_left (by omega), max_eq_right (by omega),
      sum_year_days_eq a.year b.year (by omega), wrap32_chain_pos]

lemma month_days_eq (m : Nat) (y : Int) (h1 : 1 ≤ m) (h2 : m ≤ 12) :
    month_days m y
      = RUNNING_DAYS_PER_MONTH.getD (m - 1) 0
        + (if m > 2 ∧ is_leap y then 1 else 0)
        - (if y = 1582 ∧ m > 9 then 10 else 0) := by
  unfold month_days GREGORIAN_YEAR
  interval_cases m <;>
    by_cases hy : y = (1582 : Int) <;>
      cases hl : is_leap y <;>
        simp_all [RUNNING_DAYS_PER_MONTH, is_leap_1582]

lemma month_days_lt (m : Nat) (y : Int) (h1 : 1 ≤ m) (h2 : m ≤ 12) :
    month_days m y < 2 ^ 31 := by
  rw [month_days_eq m y h1 h2]
  interval_cases m <;> split_ifs <;> simp_all [RUNNING_DAYS_PER_MONTH]

lemma day_of_year_eq (d : Date) (h1 : 1 ≤ d.month) (h2 : d.month ≤ 12) :
    day_of_year d
      = ((RUNNING_DAYS_PER_MONTH.getD (d.month - 1) 0
          + (if d.month > 2 ∧ is_leap d.year then 1 else 0)
          - (if d.year = 1582 ∧ d.month > 9 then 10 else 0) : Nat) : Int)
        - (if d.year = 1582 ∧ (d.month > 10 ∨ (d.month = 10 ∧ d.day > 13)) then 10 else 0)
        + (d.day : Int) := by
  have hlt := month_days_lt d.month d.year h1 h2
  have hmd := month_days_eq d.month d.year h1 h2
  simp only [day_of_year, u32_as_i32, GREGORIAN_YEAR]
  rw [if_pos hlt, hmd]
  split_ifs <;> ring

lemma sum_Ico_split (f : Int → Int) (a b c : Int) (hab : a ≤ b) (hbc : b ≤ c) :
    (∑ y ∈ Finset.Ico a b, f y) + (∑ y ∈ Finset.Ico b c, f y)
      = ∑ y ∈ Finset.Ico a c, f y := by
  rw [← Finset.sum_union (Finset.Ico_disjoint_Ico_consecutive a b c),
    Finset.Ico_union_Ico_eq_Ico hab hbc]

lemma year_days_neg (y : Int) (h : y < 0) :
    year_days y = 365 + (if (y + 1) % 4 = 0 then 1 else 0) := by
  have hiff : is_leap y = true ↔ (y + 1) % 4 = 0 := by
    unfold is_leap GREGORIAN_YEAR
    rw [if_pos h, if_pos (by omega : y + 1 < 1582), beq_iff_eq,
      ← Int.dvd_iff_tmod_eq_zero]
    omega
  unfold year_days GREGORIAN_YEAR
  rw [if_neg (by omega), if_neg (by omega)]
  by_cases hd : (y + 1) % 4 = 0
  · rw [if_pos (hiff.mpr hd), if_pos hd]
  · rw [if_neg (fun hz => hd (hiff.mp hz)), if_neg hd]

lemma sum_four_julian (y : Int) (h1 : y % 4 = 0) (h2 : y + 4 ≤ 0) :
    ∑ z ∈ Finset.Ico y (y + 4), year_days z = 1461 := by
  have hset : Finset.Ico y (y + 4) = {y, y + 1, y + 2, y + 3} := by
    ext z
    simp only [Finset.mem_Ico, Finset.mem_insert, Finset.mem_singleton]
    omega
  rw [hset,
    Finset.sum_insert (by
      simp only [Finset.mem_insert, Finset.mem_singleton]; omega),
    Finset.sum_insert (by
      simp only [Finset.mem_insert, Finset.mem_singleton]; omega),
    Finset.sum_insert (by simp only [Finset.mem_singleton]; omega),
    Finset.sum_singleton,
    year_days_neg y (by omega), year_days_neg (y + 1) (by omega),
    year_days_neg (y + 2) (by omega), year_days_neg (y + 3) (by omega),
    if_neg (by omega), if_neg (by omega), if_neg (by omega), if_pos (by omega)]
  norm_num

lemma julian_blocks_sum (y1 : Int) (h1 : y1 % 4 = 0) :
    ∀ k : Nat, y1 + 4 * (k : Int) ≤ 0 →
      ∑ y ∈ Finset.Ico y1 (y1 + 4 * (k : Int)), year_days y = 1461 * (k : Int) := by
  intro k
  induction k with
  | zero =>
    intro _
    simp
  | succ k ih =>
    intro h
    push_cast at h ⊢
    have hk : y1 + 4 * (k : Int) ≤ 0 := by omega
    rw [show y1 + 4 * ((k : Int) + 1) = (y1 + 4 * (k : Int)) + 4 by ring]
    rw [← sum_Ico_split year_days y1 (y1 + 4 * (k : Int)) (y1 + 4 * (k : Int) + 4)
      (by omega) (by omega)]
    rw [ih hk, sum_four_julian (y1 + 4 * (k : Int)) (by omega) (by omega)]
    ring

/-- The year-length sum of the overflow span used below: the 5879489 years
from -5879492 (inclusive) to -3 (exclusive) total 2147483357 days, to which
the day-of-year delta 292 - 1 is added by `days_between_dates` to reach
exactly 2^31 = 2147483648, the first value past `i32::MAX`. -/
lemma big_sum_value :
    ∑ y ∈ Finset.Ico (-5879492 : Int) (-3 : Int), year_days y = 2147483357 := by
  have hb := julian_blocks_sum (-5879492 : Int) (by norm_num) 1469872
    (by norm_num)
  push_cast at hb
  rw [← sum_Ico_split year_days (-5879492) (-4) (-3) (by norm_num) (by norm_num)]
  rw [hb]
  rw [show Finset.Ico (-4 : Int) (-3) = {-4} by
    ext z; simp only [Finset.mem_Ico, Finset.mem_singleton]; omega]
  rw [Finset.sum_singleton]
  rw [year_days_neg (-4 : Int) (by norm_num)]
  norm_num

lemma big_span_ab :
    days_between_dates ⟨-5879492, 1, 1⟩ ⟨-3, 10, 19⟩ = .ok (-2147483648) := by
  rw [days_between_eq_of_valid ⟨-5879492, 1, 1⟩ ⟨-3, 10, 19⟩
    (rfl : is_valid ⟨-5879492, 1, 1⟩ = .ok ())
    (rfl : is_valid ⟨-3, 10, 19⟩ = .ok ())]
  rw [show min (Date.mk (-5879492) 1 1).year (Date.mk (-3) 10 19).year
      = -5879492 from rfl,
    show max (Date.mk (-5879492) 1 1).year (Date.mk (-3) 10 19).year = -3 from rfl,
    if_neg (show ¬((Date.mk (-5879492) 1 1).year > (Date.mk (-3) 10 19).year)
      by norm_num),
    big_sum_value,
    show day_of_year ⟨-5879492, 1, 1⟩ = 1 from rfl,
    show day_of_year ⟨-3, 10, 19⟩ = 292 from rfl]
  norm_num [wrap32]

lemma big_span_ba :
    days_between_dates ⟨-3, 10, 19⟩ ⟨-5879492, 1, 1⟩ = .ok (-2147483648) := by
  rw [days_between_eq_of_valid ⟨-3, 10, 19⟩ ⟨-5879492, 1, 1⟩
    (rfl : is_valid ⟨-3, 10, 19⟩ = .ok ())
    (rfl : is_valid ⟨-5879492, 1, 1⟩ = .ok ())]
  rw [show min (Date.mk (-3) 10 19).year (Date.mk (-5879492) 1 1).year
      = -5879492 from rfl,
    show max (Date.mk (-3) 10 19).year (Date.mk (-5879492) 1 1).year = -3 from rfl,
    if_pos (show (Date.mk (-3) 10 19).year > (Date.mk (-5879492) 1 1).year
      by norm_num),
    big_sum_value,
    show day_of_year ⟨-5879492, 1, 1⟩ = 1 from rfl,
    show day_of_year ⟨-3, 10, 19⟩ = 292 from rfl]
  norm_num [wrap32]

lemma big_span_formula :
    days_between_formula ⟨-5879492, 1, 1⟩ ⟨-3, 10, 19⟩ = 2147483648 := by
  unfold days_between_formula
  rw [show min (Date.mk (-5879492) 1 1).year (Date.mk (-3) 10 19).year
      = -5879492 from rfl,
    show max (Date.mk (-5879492) 1 1).year (Date.mk (-3) 10 19).year = -3 from rfl,
    if_neg (show ¬((Date.mk (-5879492) 1 1).year > (Date.mk (-3) 10 19).year)
      by norm_num),
    big_sum_value,
    show day_of_year ⟨-5879492, 1, 1⟩ = 1 from rfl,
    show day_of_year ⟨-3, 10, 19⟩ = 292 from rfl]
  norm_num

/-- Claim C1 (code bug evidence): the code does not place October 15, 1582 at
ordinal 278.  `month_days` already subtracts 10 for every 1582 month after
September, and `day_of_year` subtracts 10 again for October days after the
13th (and for November and December), so October 15, 1582 gets ordinal 268
and December 31, 1582 gets ordinal 345, although `year_days 1582 = 355`. -/
theorem day_of_year_cutover_applied_twice :
    is_valid ⟨1582, 10, 15⟩ = .ok () ∧
    day_of_year ⟨1582, 10, 15⟩ = 268 ∧
    day_of_year ⟨1582, 12, 31⟩ = 345 ∧
    year_days 1582 = 355 :=
  ⟨rfl, rfl, rfl, rfl⟩

/-- Claim C2 (code bug evidence): the validator's reform-gap arm tests
`day > 4 && day < 14`, so October 14, 1582 is accepted even though the claim
(and the 10 dropped days implied by `year_days 1582 = 355`) require it to be
rejected; days 5 and 13 are rejected, and the accepted October 14 even
collides with October 4 in `day_of_year`. -/
theorem is_valid_accepts_oct14_1582 :
    is_valid ⟨1582, 10, 14⟩ = .ok () ∧
    is_valid ⟨1582, 10, 5⟩ = .error "October 5, 1582 does not exist" ∧
    is_valid ⟨1582, 10, 13⟩ = .error "October 13, 1582 does not exist" ∧
    day_of_year ⟨1582, 10, 14⟩ = day_of_year ⟨1582, 10, 4⟩ :=
  ⟨rfl, rfl, rfl, rfl⟩

/-- Claim C3 (counterexample): the claimed formula fails in two ways.  With
the year sum taken over the years strictly between the two years, exclusive of
both endpoints as the claim states, the formula gives 0 for 1980-01-01 to
1981-01-01, but the code returns 366 — the code's loop includes the earlier
year itself.  And even with the inclusive sum, the mathematical formula
overstates the program on spans whose day count exceeds `i32::MAX`: from
-5879492-01-01 to -3-10-19 (both valid dates) the formula gives 2^31 while
the wrapping `i32` accumulator of the program returns -2^31. -/
theorem days_between_strict_exclusive_counterexample :
    (days_between_dates ⟨1980, 1, 1⟩ ⟨1981, 1, 1⟩ = .ok 366 ∧
     days_between_claim_strict ⟨1980, 1, 1⟩ ⟨1981, 1, 1⟩ = 0 ∧
     (366 : Int) ≠ 0) ∧
    (days_between_dates ⟨-5879492, 1, 1⟩ ⟨-3, 10, 19⟩ = .ok (-2147483648) ∧
     days_between_formula ⟨-5879492, 1, 1⟩ ⟨-3, 10, 19⟩ = 2147483648 ∧
     ((-2147483648 : Int) ≠ 2147483648)) := by
  refine ⟨⟨rfl, ?_, by decide⟩, big_span_ab, big_span_formula, by decide⟩
  unfold days_between_claim_strict
  norm_num
  rw [show Finset.Ioo (1980 : Int) 1981 = ∅ by
    ext z; simp only [Finset.mem_Ioo, Finset.not_mem_empty, iff_false]; omega]
  decide

/-- Claim C3 (amended): for all valid dates, `days_between_dates` returns the
claimed formula — with the year sum ranging from the earlier year (inclusive)
up to the later year (exclusive) — reduced by the two's-complement `i32` wrap
into `[-2^31, 2^31)`. -/
theorem days_between_matches_inclusive_formula (a b : Date)
    (ha : is_valid a = .ok ()) (hb : is_valid b = .ok ()) :
    days_between_dates a b = .ok (wrap32 (days_between_formula a b)) := by
  rw [days_between_eq_of_valid a b ha hb]
  unfold days_between_formula
  split_ifs <;> rfl

theorem days_between_matches_inclusive_formula_witness :
    days_between_dates ⟨1950, 1, 1⟩ ⟨1950, 12, 31⟩
      = .ok (wrap32 (days_between_formula ⟨1950, 1, 1⟩ ⟨1950, 12, 31⟩)) :=
  days_between_matches_inclusive_formula ⟨1950, 1, 1⟩ ⟨1950, 12, 31⟩ rfl rfl

/-- Claim C4 (counterexample): antisymmetry with mathematical negation fails
at valid dates whose span wraps to exactly `i32::MIN`: both directions of the
span from -5879492-01-01 to -3-10-19 return -2^31, and the negation of -2^31
is not representable, so `days_between(a,b) = -days_between(b,a)` is false
there. -/
theorem days_between_antisym_min_counterexample :
    days_between_dates ⟨-5879492, 1, 1⟩ ⟨-3, 10, 19⟩ = .ok (-2147483648) ∧
    days_between_dates ⟨-3, 10, 19⟩ ⟨-5879492, 1, 1⟩ = .ok (-2147483648) ∧
    days_between_dates ⟨-5879492, 1, 1⟩ ⟨-3, 10, 19⟩
      ≠ Except.map (fun n => -n)
          (days_between_dates ⟨-3, 10, 19⟩ ⟨-5879492, 1, 1⟩) := by
  refine ⟨big_span_ab, big_span_ba, ?_⟩
  rw [big_span_ab, big_span_ba]
  simp only [Except.map]
  intro hcontra
  have h2 := Except.ok.inj hcontra
  norm_num at h2

/-- Claim C4 (amended): for all dates that pass validation,
`days_between_dates a b` is the `i32` (two's-complement wrapping) negation of
`days_between_dates b a`; with mathematical negation the identity holds
except when the result wraps to `i32::MIN`. -/
theorem days_between_antisymmetric (a b : Date)
    (ha : is_valid a = .ok ()) (hb : is_valid b = .ok ()) :
    days_between_dates a b
      = Except.map (fun n => wrap32 (-n)) (days_between_dates b a) := by
  rw [days_between_eq_of_valid a b ha hb, days_between_eq_of_valid b a hb ha]
  simp only [Except.map, Except.ok.injEq]
  rw [wrap32_neg_wrap]
  rw [min_comm b.year a.year, max_comm b.year a.year]
  rcases lt_trichotomy a.year b.year with h | h | h
  · rw [if_neg (by omega), if_pos h]
    congr 1
    ring
  · have hS : (∑ y ∈ Finset.Ico (min a.year b.year) (max a.year b.year),
        year_days y) = 0 := by
      rw [h, min_self, max_self, Finset.Ico_self, Finset.sum_empty]
    rw [if_neg (by omega), if_neg (by omega), hS]
    congr 1
    ring
  · rw [if_pos h, if_neg (by omega)]
    congr 1
    ring

theorem days_between_antisymmetric_witness :
    days_between_dates ⟨1950, 1, 1⟩ ⟨1950, 12, 31⟩
      = Except.map (fun n => wrap32 (-n))
          (days_between_dates ⟨1950, 12, 31⟩ ⟨1950, 1, 1⟩) :=
  days_between_antisymmetric ⟨1950, 1, 1⟩ ⟨1950, 12, 31⟩ rfl rfl

set_option maxRecDepth 100000 in
/-- Claim C5: the four reference spans of the specification. -/
theorem days_between_reference_spans :
    days_between_dates ⟨1950, 1, 1⟩ ⟨1950, 12, 31⟩ = .ok 364 ∧
    days_between_dates ⟨1977, 10, 1⟩ ⟨2021, 7, 22⟩ = .ok 16000 ∧
    days_between_dates ⟨2000, 1, 1⟩ ⟨2400, 1, 1⟩ = .ok 146097 ∧
    days_between_dates ⟨1582, 1, 1⟩ ⟨1982, 1, 1⟩ = .ok 146087 := by
  refine ⟨rfl, ?_, ?_, ?_⟩
  · rw [days_between_eq_of_valid ⟨1977, 10, 1⟩ ⟨2021, 7, 22⟩ rfl rfl,
      show min (Date.mk 1977 10 1).year (Date.mk 2021 7 22).year = 1977 from rfl,
      show max (Date.mk 1977 10 1).year (Date.mk 2021 7 22).year = 2021 from rfl,
      if_neg (show ¬((Date.mk 1977 10 1).year > (Date.mk 2021 7 22).year)
        by norm_num),
      show (∑ y ∈ Finset.Ico (1977 : Int) 2021, year_days y) = 16071 by decide,
      show day_of_year ⟨1977, 10, 1⟩ = 274 from rfl,
      show day_of_year ⟨2021, 7, 22⟩ = 203 from rfl]
    norm_num [wrap32]
  · rw [days_between_eq_of_valid ⟨2000, 1, 1⟩ ⟨2400, 1, 1⟩ rfl rfl,
      show min (Date.mk 2000 1 1).year (Date.mk 2400 1 1).year = 2000 from rfl,
      show max (Date.mk 2000 1 1).year (Date.mk 2400 1 1).year = 2400 from rfl,
      if_neg (show ¬((Date.mk 2000 1 1).year > (Date.mk 2400 1 1).year)
        by norm_num),
      show (∑ y ∈ Finset.Ico (2000 : Int) 2400, year_days y) = 146097 by decide,
      show day_of_year ⟨2000, 1, 1⟩ = 1 from rfl,
      show day_of_year ⟨2400, 1, 1⟩ = 1 from rfl]
    norm_num [wrap32]
  · rw [days_between_eq_of_valid ⟨1582, 1, 1⟩ ⟨1982, 1, 1⟩ rfl rfl,
      show min (Date.mk 1582 1 1).year (Date.mk 1982 1 1).year = 1582 from rfl,
      show max (Date.mk 1582 1 1).year (Date.mk 1982 1 1).year = 1982 from rfl,
      if_neg (show ¬((Date.mk 1582 1 1).year > (Date.mk 1982 1 1).year)
        by norm_num),
      show (∑ y ∈ Finset.Ico (1582 : Int) 1982, year_days y) = 146087 by decide,
      show day_of_year ⟨1582, 1, 1⟩ = 1 from rfl,
      show day_of_year ⟨1982, 1, 1⟩ = 1 from rfl]
    norm_num [wrap32]

/-- Claim C6: on every nonzero year the leap-year predicate agrees with the
claimed description (shift years before 1 by +1, Julian rule below 1582,
Gregorian rule from 1582 on), and the claimed leap-year table holds. -/
theorem is_leap_matches_description :
    (∀ y : Int, y ≠ 0 → is_leap y = is_leap_claim y) ∧
    is_leap 2000 = true ∧ is_leap 2004 = true ∧ is_leap 100 = true ∧
    is_leap (-1) = true ∧ is_leap 2001 = false ∧ is_leap 2100 = false ∧
    is_leap (-4) = false := by
  refine ⟨?_, by decide, by decide, by decide, by decide, by decide, by decide,
    by decide⟩
  intro y hy
  unfold is_leap is_leap_claim GREGORIAN_YEAR
  by_cases h : y < 0
  · rw [if_pos h, if_pos (by omega : y < 1)]
  · rw [if_neg h, if_neg (by omega : ¬y < 1)]

theorem is_leap_matches_description_witness :
    is_leap (-1) = is_leap_claim (-1) :=
  is_leap_matches_description.1 (-1) (by decide)

/-- Claim C7: years -1 and 1 are adjacent; the span from December 31, 1 BC to
January 1, 1 AD is one day, the skipped year 0 contributing `year_days 0 = 0`
to the summation. -/
theorem days_between_cross_era :
    days_between_dates ⟨-1, 12, 31⟩ ⟨1, 1, 1⟩ = .ok 1 ∧ year_days 0 = 0 :=
  ⟨rfl, rfl⟩

/-- Claim C8: `days_between_dates` validates its first argument before its
second and short-circuits on the first validation error, and any call in which
either date has year 0 yields an error. -/
theorem days_between_error_short_circuit :
    (∀ a b : Date, ∀ e : String,
      is_valid a = .error e → days_between_dates a b = .error e) ∧
    (∀ a b : Date, ∀ e : String, is_valid a = .ok () → is_valid b = .error e →
      days_between_dates a b = .error e) ∧
    (∀ a b : Date, a.year = 0 ∨ b.year = 0 →
      (days_between_dates a b).isOk = false) := by
  have hz : ∀ c : Date, c.year = 0 →
      is_valid c = .error "Year 0 does not exist" := by
    intro c hc
    unfold is_valid
    rw [if_pos hc]
  refine ⟨?_, ?_, ?_⟩
  · intro a b e h
    unfold days_between_dates
    rw [h]
  · intro a b e ha hb
    unfold days_between_dates
    rw [ha, hb]
  · intro a b h
    rcases h with h | h
    · unfold days_between_dates
      rw [hz a h]
      rfl
    · rcases hva : is_valid a with e | u
      · unfold days_between_dates
        rw [hva]
        rfl
      · unfold days_between_dates
        cases u
        rw [hva, hz b h]
        rfl

theorem days_between_error_short_circuit_witness :
    (days_between_dates ⟨0, 1, 1⟩ ⟨1, 1, 1⟩).isOk = false :=
  days_between_error_short_circuit.2.2 ⟨0, 1, 1⟩ ⟨1, 1, 1⟩ (Or.inl rfl)

/-- Claim C9: the validator is total (it always yields success or an error) and
applies its checks in precedence order: year zero, then month range, then the
1582 October gap, then the day-range check with February's leap adjustment; in
particular year 0 with month 15 yields the year-zero error. -/
theorem is_valid_precedence :
    (∀ d : Date, is_valid d = .ok () ∨ ∃ e, is_valid d = .error e) ∧
    (∀ d : Date, d.year = 0 → is_valid d = .error "Year 0 does not exist") ∧
    (∀ d : Date, d.year ≠ 0 → (d.month < 1 ∨ d.month > 12) →
      is_valid d = .error "Invalid month") ∧
    (∀ d : Date, d.year = 1582 → d.month = 10 → 4 < d.day → d.day < 14 →
      is_valid d = .error (display d ++ " does not exist")) ∧
    (∀ d : Date, d.year ≠ 0 → 1 ≤ d.month → d.month ≤ 12 →
      ¬(d.year = 1582 ∧ d.month = 10 ∧ 4 < d.day ∧ d.day < 14) →
      (is_valid d = .ok () ↔ 1 ≤ d.day ∧ d.day ≤ MONTH_DAYS.getD (d.month - 1) 0
        + (if d.month = 2 ∧ is_leap d.year then 1 else 0))) ∧
    is_valid ⟨0, 15, 1⟩ = .error "Year 0 does not exist" := by
  refine ⟨?_, ?_, ?_, ?_, ?_, rfl⟩
  · intro d
    rcases h : is_valid d with e | u
    · exact Or.inr ⟨e, rfl⟩
    · cases u
      exact Or.inl rfl
  · intro d h
    unfold is_valid
    rw [if_pos h]
  · intro d h0 hm
    unfold is_valid
    rw [if_neg h0, if_pos hm]
  · intro d hy hm h4 h14
    unfold is_valid GREGORIAN_YEAR
    rw [if_neg (by omega), if_neg (by omega), if_pos ⟨hy, hm, h4, h14⟩]
  · intro d h0 hm1 hm2 hgap
    rw [is_valid_ok_iff d]
    constructor
    · rintro ⟨_, _, _, _, hd1, hd2⟩
      exact ⟨hd1, hd2⟩
    · rintro ⟨hd1, hd2⟩
      exact ⟨h0, hm1, hm2, hgap, hd1, hd2⟩

theorem is_valid_precedence_witness :
    is_valid ⟨0, 2, 30⟩ = .error "Year 0 does not exist" :=
  is_valid_precedence.2.1 ⟨0, 2, 30⟩ rfl

/-- Claim C10: every date that passes validation has a day-of-year ordinal
between 1 and the length of its own year, including in the 355-day year 1582. -/
theorem day_of_year_in_year_range (d : Date) (h : is_valid d = .ok ()) :
    1 ≤ day_of_year d ∧ day_of_year d ≤ year_days d.year := by
  rw [is_valid_ok_iff] at h
  obtain ⟨y, m, day⟩ := d
  simp only at h
  obtain ⟨hy0, hm1, hm2, hgap, hd1, hd2⟩ := h
  rw [day_of_year_eq ⟨y, m, day⟩ hm1 hm2]
  simp only
  unfold year_days GREGORIAN_YEAR
  interval_cases m <;>
    by_cases hy : y = 1582 <;>
      cases hl : is_leap y <;>
        simp_all [MONTH_DAYS, RUNNING_DAYS_PER_MONTH, is_leap_1582] <;>
          (try split_ifs) <;> omega

theorem day_of_year_in_year_range_witness :
    1 ≤ day_of_year ⟨1582, 12, 31⟩ ∧
    day_of_year ⟨1582, 12, 31⟩ ≤ year_days 1582 :=
  day_of_year_in_year_range ⟨1582, 12, 31⟩ rfl
